import Mathlib

/-!
Shallow embedding of `src/static/js/components/form-handler.js` (class
`FormHandler`): client-side form validation, async submission with a
loading state, and toast notifications.

Modelling conventions:
* A DOM field (input/textarea/select) is a `Field` record carrying the
  attributes the code consults (`type`, `required`, `value`,
  `defaultValue`, `data-min-length`, `data-confirm`) together with its
  current validation annotation (`is-invalid` class + the
  `invalid-feedback` message element in the field's form group; each
  field is assumed to sit in its own form group, as the markup produced
  by `markFieldAsInvalid` / `clearFieldValidation` presumes).
* `dataset.minLength` is modelled as `Option Nat`: `none` when the
  attribute is absent/empty/unparsable (in those cases the JS length
  check is a no-op: `parseInt` yields `NaN` and `length < NaN` is
  false), `some n` when it parses.
* JavaScript string truthiness is emptiness testing; `String.trim` is
  modelled as dropping whitespace from both ends (`jsTrim`), and
  `toLowerCase` as `Char.toLower` (ASCII case mapping; the email regex
  only distinguishes whitespace, `@` and `.`, all fixed by any case
  mapping).
* `querySelector` is `List.find?` (first match in document order);
  `querySelectorAll` is filtering/iteration over the field list.
* The submit handler is a function of the form state and of an abstract
  `FetchResult` describing how the single `fetch` cycle resolves; it
  returns the new form state, the ordered list of observable events
  (loading toggles, the request, notifications, navigation, reset) and
  a flag recording that an exception escaped the handler.
* The submit button's `innerHTML`/label mutation in `setFormLoading` is
  not modelled (no claim concerns the label); the button model keeps
  the `disabled` property and the `btn-loading` class.
-/

namespace FormHandler

/-- `input.type` values the code distinguishes (`email`, `password`);
everything else behaves uniformly. -/
inductive FieldType where
  | email
  | password
  | plain
deriving DecidableEq, Repr

/-- A form field with the attributes consulted by the code and its
current validation annotation. -/
structure Field where
  ftype : FieldType
  required : Bool
  value : String
  defaultValue : String
  minLength : Option Nat
  confirm : Bool
  invalid : Bool
  message : Option String
deriving DecidableEq, Repr

/-- The submit control, as mutated by `setFormLoading`. -/
structure SubmitBtn where
  disabled : Bool
  btnLoading : Bool
deriving DecidableEq, Repr

/-- A managed form: its fields in document order, the first element
matching the submit-button selector (`none` when the form has no such
descendant), the `form-loading` class, and the `data-reset-on-success`
flag (`true` exactly when the attribute value is the string true). -/
structure Form where
  fields : List Field
  button : Option SubmitBtn
  formLoading : Bool
  resetOnSuccess : Bool
deriving DecidableEq, Repr

/-- JavaScript `String.prototype.trim`: strip whitespace from both
ends. -/
def jsTrim (s : String) : String :=
  ⟨((s.data.dropWhile Char.isWhitespace).reverse.dropWhile Char.isWhitespace).reverse⟩

/-- `isValidEmail` (lines 225-228): lowercase the value and test it
against `/^[^\s@]+@[^\s@]+\.[^\s@]+$/`.  The regex forces exactly one
`@`; the part before it is a nonempty run of non-whitespace
non-`@` characters; the part after it is such a run containing a `.`
that has at least one character of the run on each side. -/
def isValidEmail (email : String) : Bool :=
  let cs := email.data.map Char.toLower
  let labelPart := cs.takeWhile (fun c => c != '@')
  match cs.dropWhile (fun c => c != '@') with
  | [] => false
  | _ :: domainPart =>
    (!labelPart.isEmpty)
      && labelPart.all (fun c => !c.isWhitespace)
      && (!domainPart.isEmpty)
      && domainPart.all (fun c => !c.isWhitespace && c != '@')
      && ((domainPart.drop 1).dropLast.contains '.')

/-- The message placed by the required-field check (line 78). -/
def requiredMsg : String := "This field is required"

/-- The message placed by the email-format check (line 81). -/
def emailMsg : String := "Please enter a valid email address"

/-- The message placed by the password-length check (line 86), built
from the template literal. -/
def pwLenMsg (n : Nat) : String :=
  "Password must be at least " ++ toString n ++ " characters"

/-- The message placed by the password-confirmation check (line 97). -/
def confirmMsg : String := "Passwords do not match"

/-- The per-field check body of the `requiredFields.forEach` loop in
`validateForm` (lines 76-90), applied by the code only to fields
bearing the `required` attribute.  Returns the message the field is
marked with, or `none` when the field passes. -/
def fieldError (f : Field) : Option String :=
  if jsTrim f.value = "" then some requiredMsg
  else if f.ftype = FieldType.email ∧ ¬ isValidEmail f.value then some emailMsg
  else
    match f.minLength with
    | some n => if f.ftype = FieldType.password ∧ f.value.length < n then some (pwLenMsg n) else none
    | none => none

/-- `markFieldAsInvalid` (lines 124-138) restricted to one field's own
form group: clear any previous message, add the `is-invalid` class,
append the new message element. -/
def applyMark (f : Field) (m : String) : Field :=
  { f with invalid := true, message := some m }

/-- One iteration of the `requiredFields.forEach` loop for a field that
carries the `required` attribute. -/
def checkField (f : Field) : Field :=
  match fieldError f with
  | some m => applyMark f m
  | none => f

/-- What the `requiredFields.forEach` loop does to one field of the
form: fields selected by `[required]` are checked, all others are
untouched. -/
def checkStep (f : Field) : Field :=
  if f.required then checkField f else f

/-- The whole `requiredFields.forEach` loop of `validateForm`. -/
def phase1 (fs : List Field) : List Field :=
  fs.map checkStep

/-- Whether the loop left `isValid` true: no required field failed its
checks. -/
def phase1Ok (fs : List Field) : Bool :=
  fs.all (fun f => !(f.required && (fieldError f).isSome))

/-- Selector `input[type="password"]`. -/
def pwPred (f : Field) : Bool := f.ftype = FieldType.password

/-- Selector `input[type="password"][data-confirm]`. -/
def confirmPred (f : Field) : Bool := (f.ftype = FieldType.password) && f.confirm

/-- The password-confirmation condition of lines 93-96: both
`querySelector` calls find a field and their values differ.  (When the
first password field is itself the confirm field, both selectors
return the same node and the condition is false.) -/
def confirmMismatch (fs : List Field) : Bool :=
  match fs.find? pwPred, fs.find? confirmPred with
  | some p, some c => p.value != c.value
  | _, _ => false

/-- `markFieldAsInvalid(confirmPassword, ...)`: mark the first field
matched by the confirm selector. -/
def markConfirmField : List Field → List Field
  | [] => []
  | f :: rest =>
    if confirmPred f then applyMark f confirmMsg :: rest
    else f :: markConfirmField rest

/-- `validateForm` (lines 72-102): run the required-field loop, then
the password-confirmation check; return the mutated form and the
`isValid` flag. -/
def validateForm (form : Form) : Form × Bool :=
  let fs1 := phase1 form.fields
  if confirmMismatch fs1 then
    ({ form with fields := markConfirmField fs1 }, false)
  else
    ({ form with fields := fs1 }, phase1Ok form.fields)

/-- The message the blur listener (lines 114-120) would mark the field
with: the required-empty check, else the email-format check guarded by
`input.value` truthiness; there is no password-length check here. -/
def blurMark (f : Field) : Option String :=
  if f.required ∧ jsTrim f.value = "" then some requiredMsg
  else if f.ftype = FieldType.email ∧ f.value ≠ "" ∧ ¬ isValidEmail f.value then some emailMsg
  else none

/-- The blur listener itself: mark the field when a check fails,
otherwise leave it untouched. -/
def blurValidate (f : Field) : Field :=
  match blurMark f with
  | some m => applyMark f m
  | none => f

/-- What the `requiredFields.forEach` loop of `validateForm` does to
one given field: fields without the `required` attribute are not
selected and never marked. -/
def submitFieldMark (f : Field) : Option String :=
  if f.required then fieldError f else none

/-- `setFormLoading` (lines 151-168).  `form.querySelector` for the
submit button yields `null` when the form has no submit control, and
the immediately following `submitButton.disabled = ...` assignment
throws a TypeError: modelled by returning `none`. -/
def setFormLoading (form : Form) (isLoading : Bool) : Option Form :=
  match form.button with
  | none => none
  | some b =>
    if isLoading then
      some { form with button := some { b with disabled := true, btnLoading := true },
                       formLoading := true }
    else
      some { form with button := some { b with disabled := false, btnLoading := false },
                       formLoading := false }

/-- `form.reset()`: every field's value returns to its default. -/
def resetForm (form : Form) : Form :=
  { form with fields := form.fields.map (fun f => { f with value := f.defaultValue }) }

/-- The JSON body of a response, after parsing: the two properties the
code reads. -/
structure RespBody where
  redirect : Option String
  message : Option String
deriving DecidableEq, Repr

/-- How the single `fetch` cycle of a submission resolves:
`netThrow m` — the request (or reading the response) rejects with an
error whose `message` is `m`; `resp ok body` — a response arrives with
`response.ok = ok` and `body` the parse result of `response.json()`
(`none` when the body is not valid JSON). -/
inductive FetchResult where
  | netThrow (m : String)
  | resp (ok : Bool) (body : Option RespBody)
deriving DecidableEq, Repr

/-- Observable events of one run of the submit handler, in order. -/
inductive Ev where
  | setLoading (engaged : Bool)
  | request
  | notify (title msg ty : String)
  | nav (url : String)
  | formReset
deriving DecidableEq, Repr

/-- JavaScript `a || b` on strings: `b` when `a` is empty (falsy),
else `a`. -/
def jsOr (a b : String) : String := if a = "" then b else a

/-- The `finally` block (lines 63-65): release the loading state.  The
branch for a missing button cannot fire here (the handler only reaches
`finally` after `setFormLoading(form, true)` succeeded), but it is kept
for faithfulness. -/
def finallyRelease (f : Form) (evs : List Ev) : Form × List Ev × Bool :=
  match setFormLoading f false with
  | some f3 => (f3, evs ++ [Ev.setLoading false], false)
  | none => (f, evs, true)

/-- The submit listener installed by `setupForm` (lines 29-66), as a
function of the form state and of how the fetch resolves.  Returns the
final form state, the event trace, and whether an exception escaped
the listener. -/
def handleSubmit (form : Form) (fr : FetchResult) : Form × List Ev × Bool :=
  let v := validateForm form
  if v.2 then
    match setFormLoading v.1 true with
    | none => (v.1, [], true)
    | some f2 =>
      let pre : List Ev := [Ev.setLoading true, Ev.request]
      match fr with
      | FetchResult.netThrow m =>
        finallyRelease f2
          (pre ++ [Ev.notify "Error" (jsOr m "An error occurred. Please try again.") "error"])
      | FetchResult.resp ok body =>
        let result : RespBody := body.getD ⟨none, none⟩
        if ok then
          let evs0 := pre ++ [Ev.notify "Success!" "Operation completed successfully." "success"]
          match result.redirect with
          | some r =>
            if r ≠ "" then finallyRelease f2 (evs0 ++ [Ev.nav r])
            else if f2.resetOnSuccess then finallyRelease (resetForm f2) (evs0 ++ [Ev.formReset])
            else finallyRelease f2 evs0
          | none =>
            if f2.resetOnSuccess then finallyRelease (resetForm f2) (evs0 ++ [Ev.formReset])
            else finallyRelease f2 evs0
        else
          finallyRelease f2
            (pre ++ [Ev.notify "Error"
              (jsOr (jsOr (result.message.getD "") "An error occurred")
                "An error occurred. Please try again.") "error"])
  else
    (v.1, [], false)

/-- The document state consulted by the idempotent-initialization
paths: how many elements carry the id of the notification container
and how many carry the id of the injected style block. -/
structure Doc where
  containers : Nat
  styleBlocks : Nat
deriving DecidableEq, Repr

/-- `createNotificationContainer` (lines 171-182): reuse the element
found by `getElementById`, create and append one otherwise. -/
def createNotificationContainer (d : Doc) : Doc :=
  if d.containers = 0 then { d with containers := d.containers + 1 } else d

/-- `addStyles` (lines 230-237): return early when the style block
already exists, append one otherwise. -/
def addStyles (d : Doc) : Doc :=
  if d.styleBlocks = 0 then { d with styleBlocks := d.styleBlocks + 1 } else d

/-- Constructing a `FormHandler`: the constructor creates (or finds)
the notification container, then `init` injects the styles. -/
def newFormHandler (d : Doc) : Doc :=
  addStyles (createNotificationContainer d)

/-- A toast element: its class list and the markup assigned to its
`innerHTML`. -/
structure Toast where
  className : String
  innerHTML : String
deriving DecidableEq, Repr

/-- The fixed template text before the title interpolation. -/
def toastPre : String :=
  "\n      <div class=\"toast-content\">\n        <h4 class=\"toast-title\">"

/-- The fixed template text between the title and the message. -/
def toastMid : String :=
  "</h4>\n        <p class=\"toast-message\">"

/-- The fixed template text after the message interpolation. -/
def toastSuf : String :=
  "</p>\n      </div>\n      <button class=\"toast-close\" aria-label=\"Close\">&times;</button>\n    "

/-- The `toast.innerHTML` template literal of lines 188-194: the title
and message strings are interpolated verbatim, with no escaping. -/
def toastHTML (title message : String) : String :=
  toastPre ++ title ++ toastMid ++ message ++ toastSuf

/-- `showNotification` (lines 184-211) as it affects the shared
container: append one toast built from the template.  (The close-click
listener and the auto-dismiss timer only remove the toast later and
are outside the scope of the claims about this function.) -/
def showNotification (container : List Toast) (title message ty : String) : List Toast :=
  container ++ [{ className := "toast " ++ ty, innerHTML := toastHTML title message }]

/-- Standard HTML escaping of the metacharacters, for comparison: the
code does not apply it. -/
def htmlEscapeChar (c : Char) : String :=
  if c = '&' then "&amp;"
  else if c = '<' then "&lt;"
  else if c = '>' then "&gt;"
  else if c = '"' then "&quot;"
  else String.singleton c

/-- Escape a whole string. -/
def htmlEscape (s : String) : String :=
  String.join (s.data.map htmlEscapeChar)

/-! ### Preservation lemmas

The validation passes only touch the `invalid` flag and the `message`
element of a field; everything the selectors and checks consult is
preserved. -/

@[simp]
lemma applyMark_ftype (f : Field) (m : String) : (applyMark f m).ftype = f.ftype := rfl

@[simp]
lemma applyMark_required (f : Field) (m : String) : (applyMark f m).required = f.required := rfl

@[simp]
lemma applyMark_value (f : Field) (m : String) : (applyMark f m).value = f.value := rfl

@[simp]
lemma applyMark_defaultValue (f : Field) (m : String) :
    (applyMark f m).defaultValue = f.defaultValue := rfl

@[simp]
lemma applyMark_confirm (f : Field) (m : String) : (applyMark f m).confirm = f.confirm := rfl

@[simp]
lemma applyMark_invalid (f : Field) (m : String) : (applyMark f m).invalid = true := rfl

@[simp]
lemma applyMark_message (f : Field) (m : String) : (applyMark f m).message = some m := rfl

@[simp]
lemma checkField_ftype (f : Field) : (checkField f).ftype = f.ftype := by
  unfold checkField; cases fieldError f <;> simp

@[simp]
lemma checkField_required (f : Field) : (checkField f).required = f.required := by
  unfold checkField; cases fieldError f <;> simp

@[simp]
lemma checkField_value (f : Field) : (checkField f).value = f.value := by
  unfold checkField; cases fieldError f <;> simp

@[simp]
lemma checkField_defaultValue (f : Field) : (checkField f).defaultValue = f.defaultValue := by
  unfold checkField; cases fieldError f <;> simp

@[simp]
lemma checkField_confirm (f : Field) : (checkField f).confirm = f.confirm := by
  unfold checkField; cases fieldError f <;> simp

@[simp]
lemma checkStep_ftype (f : Field) : (checkStep f).ftype = f.ftype := by
  unfold checkStep; split <;> simp

@[simp]
lemma checkStep_required (f : Field) : (checkStep f).required = f.required := by
  unfold checkStep; split <;> simp

@[simp]
lemma checkStep_value (f : Field) : (checkStep f).value = f.value := by
  unfold checkStep; split <;> simp

@[simp]
lemma checkStep_defaultValue (f : Field) : (checkStep f).defaultValue = f.defaultValue := by
  unfold checkStep; split <;> simp

@[simp]
lemma checkStep_confirm (f : Field) : (checkStep f).confirm = f.confirm := by
  unfold checkStep; split <;> simp

@[simp]
lemma pwPred_checkStep (f : Field) : pwPred (checkStep f) = pwPred f := by
  simp [pwPred]

@[simp]
lemma confirmPred_checkStep (f : Field) : confirmPred (checkStep f) = confirmPred f := by
  simp [confirmPred]

@[simp]
lemma pwPred_applyMark (f : Field) (m : String) : pwPred (applyMark f m) = pwPred f := by
  simp [pwPred]

@[simp]
lemma confirmPred_applyMark (f : Field) (m : String) :
    confirmPred (applyMark f m) = confirmPred f := by
  simp [confirmPred]

lemma phase1_length (fs : List Field) : (phase1 fs).length = fs.length := by
  simp [phase1]

lemma phase1_getElem? (fs : List Field) (i : Nat) :
    (phase1 fs)[i]? = fs[i]?.map checkStep := by
  simp [phase1]

lemma phase1_find?_pw (fs : List Field) :
    (phase1 fs).find? pwPred = (fs.find? pwPred).map checkStep := by
  unfold phase1
  rw [List.find?_map]
  have : (pwPred ∘ checkStep) = pwPred := funext fun f => pwPred_checkStep f
  rw [this]

lemma phase1_find?_confirm (fs : List Field) :
    (phase1 fs).find? confirmPred = (fs.find? confirmPred).map checkStep := by
  unfold phase1
  rw [List.find?_map]
  have : (confirmPred ∘ checkStep) = confirmPred := funext fun f => confirmPred_checkStep f
  rw [this]

lemma phase1_map_value (fs : List Field) :
    (phase1 fs).map Field.value = fs.map Field.value := by
  unfold phase1
  rw [List.map_map]
  have : (Field.value ∘ checkStep) = Field.value := funext fun f => checkStep_value f
  rw [this]

lemma phase1_map_defaultValue (fs : List Field) :
    (phase1 fs).map Field.defaultValue = fs.map Field.defaultValue := by
  unfold phase1
  rw [List.map_map]
  have : (Field.defaultValue ∘ checkStep) = Field.defaultValue :=
    funext fun f => checkStep_defaultValue f
  rw [this]

lemma markConfirmField_find? (fs : List Field) (c : Field)
    (h : fs.find? confirmPred = some c) :
    (markConfirmField fs).find? confirmPred = some (applyMark c confirmMsg) := by
  induction fs with
  | nil => simp at h
  | cons f rest ih =>
    by_cases hf : confirmPred f
    · rw [List.find?_cons_of_pos _ hf] at h
      cases h
      unfold markConfirmField
      rw [if_pos hf]
      exact List.find?_cons_of_pos _ (by simpa using hf)
    · rw [List.find?_cons_of_neg _ hf] at h
      unfold markConfirmField
      rw [if_neg hf, List.find?_cons_of_neg _ hf]
      exact ih h

lemma markConfirmField_getElem? (fs : List Field) (i : Nat) (f : Field)
    (h : fs[i]? = some f) :
    (markConfirmField fs)[i]? = some f
      ∨ (markConfirmField fs)[i]? = some (applyMark f confirmMsg) := by
  induction fs generalizing i with
  | nil => simp at h
  | cons g rest ih =>
    unfold markConfirmField
    cases i with
    | zero =>
      simp only [List.getElem?_cons_zero, Option.some.injEq] at h
      subst h
      split
      · right; simp
      · left; simp
    | succ j =>
      simp only [List.getElem?_cons_succ] at h
      split
      · left; simpa using h
      · simpa using ih j h

lemma markConfirmField_getElem?_of_neg (fs : List Field) (i : Nat) (f : Field)
    (h : fs[i]? = some f) (hf : confirmPred f = false) :
    (markConfirmField fs)[i]? = some f := by
  induction fs generalizing i with
  | nil => simp at h
  | cons g rest ih =>
    unfold markConfirmField
    cases i with
    | zero =>
      simp only [List.getElem?_cons_zero, Option.some.injEq] at h
      subst h
      rw [if_neg (by simp [hf])]
      simp
    | succ j =>
      simp only [List.getElem?_cons_succ] at h
      split
      · simpa using h
      · simpa using ih j h

lemma markConfirmField_map_value (fs : List Field) :
    (markConfirmField fs).map Field.value = fs.map Field.value := by
  induction fs with
  | nil => rfl
  | cons f rest ih =>
    unfold markConfirmField
    split <;> simp [ih]

lemma markConfirmField_map_defaultValue (fs : List Field) :
    (markConfirmField fs).map Field.defaultValue = fs.map Field.defaultValue := by
  induction fs with
  | nil => rfl
  | cons f rest ih =>
    unfold markConfirmField
    split <;> simp [ih]

lemma validateForm_button (form : Form) : (validateForm form).1.button = form.button := by
  unfold validateForm
  dsimp only
  split <;> rfl

lemma validateForm_formLoading (form : Form) :
    (validateForm form).1.formLoading = form.formLoading := by
  unfold validateForm
  dsimp only
  split <;> rfl

lemma validateForm_resetOnSuccess (form : Form) :
    (validateForm form).1.resetOnSuccess = form.resetOnSuccess := by
  unfold validateForm
  dsimp only
  split <;> rfl

lemma validateForm_map_value (form : Form) :
    (validateForm form).1.fields.map Field.value = form.fields.map Field.value := by
  unfold validateForm
  dsimp only
  split
  · show (markConfirmField (phase1 form.fields)).map Field.value = _
    rw [markConfirmField_map_value, phase1_map_value]
  · exact phase1_map_value form.fields

lemma validateForm_map_defaultValue (form : Form) :
    (validateForm form).1.fields.map Field.defaultValue
      = form.fields.map Field.defaultValue := by
  unfold validateForm
  dsimp only
  split
  · show (markConfirmField (phase1 form.fields)).map Field.defaultValue = _
    rw [markConfirmField_map_defaultValue, phase1_map_defaultValue]
  · exact phase1_map_defaultValue form.fields

/-! ### Email-pattern lemmas -/

lemma char_toNat_ofNat (n : Nat) (h : n.isValidChar) : (Char.ofNat n).toNat = n := by
  rw [Char.ofNat, dif_pos h]
  rfl

/-- `Char.toLower` never produces a character outside the lowercase
range `[97, 122]` from a different character. -/
lemma toLower_ne (c d : Char) (hc : c ≠ d) (hd : d.toNat < 97 ∨ 122 < d.toNat) :
    Char.toLower c ≠ d := by
  show (if c.toNat ≥ 65 ∧ c.toNat ≤ 90 then Char.ofNat (c.toNat + 32) else c) ≠ d
  split
  · intro heq
    rename_i hrange
    have hv : (c.toNat + 32).isValidChar := Or.inl (by omega)
    have := char_toNat_ofNat (c.toNat + 32) hv
    rw [heq] at this
    omega
  · exact hc

lemma not_mem_map_toLower (v : List Char) (d : Char)
    (hd : d.toNat < 97 ∨ 122 < d.toNat) (h : d ∉ v) :
    d ∉ v.map Char.toLower := by
  intro hmem
  rcases List.mem_map.mp hmem with ⟨c, hc, heq⟩
  by_cases hcd : c = d
  · exact h (hcd ▸ hc)
  · exact toLower_ne c d hcd hd heq

/-- A value with no `@` fails the email pattern: the regex's mandatory
`@` never matches. -/
lemma isValidEmail_false_of_no_at (v : String) (h : '@' ∉ v.data) :
    isValidEmail v = false := by
  have hm : '@' ∉ v.data.map Char.toLower :=
    not_mem_map_toLower v.data '@' (Or.inl (by decide)) h
  have hdrop : (v.data.map Char.toLower).dropWhile (fun c => c != '@') = [] := by
    rw [List.dropWhile_eq_nil_iff]
    intro c hc
    simp only [bne_iff_ne, ne_eq, decide_eq_true_eq]
    exact fun he => hm (he ▸ hc)
  unfold isValidEmail
  simp only [hdrop]

/-- A value with no `.` fails the email pattern: the regex's mandatory
`.` never matches. -/
lemma isValidEmail_false_of_no_dot (v : String) (h : '.' ∉ v.data) :
    isValidEmail v = false := by
  have hm : '.' ∉ v.data.map Char.toLower :=
    not_mem_map_toLower v.data '.' (Or.inl (by decide)) h
  unfold isValidEmail
  cases hdrop : (v.data.map Char.toLower).dropWhile (fun c => c != '@') with
  | nil => simp [hdrop]
  | cons a domainPart =>
    simp only [hdrop]
    have hsub : domainPart.Sublist (v.data.map Char.toLower) := by
      have h1 : (a :: domainPart).Sublist (v.data.map Char.toLower) :=
        hdrop ▸ List.dropWhile_sublist _
      exact (List.sublist_cons_self a domainPart).trans h1
    have hdot : ((domainPart.drop 1).dropLast.contains '.') = false := by
      rw [Bool.eq_false_iff]
      intro hcon
      have : '.' ∈ (domainPart.drop 1).dropLast := by
        simpa using hcon
      have h1 : '.' ∈ domainPart.drop 1 := (List.dropLast_sublist _).subset this
      have h2 : '.' ∈ domainPart := (List.drop_sublist 1 domainPart).subset h1
      exact hm (hsub.subset h2)
    rw [hdot, Bool.and_false]

/-! ### Submission-path lemmas -/

lemma setFormLoading_true_eq (form : Form) (b : SubmitBtn) (hb : form.button = some b) :
    setFormLoading form true
      = some { form with button := some { disabled := true, btnLoading := true },
                         formLoading := true } := by
  simp [setFormLoading, hb]

lemma setFormLoading_false_eq (form : Form) (b : SubmitBtn) (hb : form.button = some b) :
    setFormLoading form false
      = some { form with button := some { disabled := false, btnLoading := false },
                         formLoading := false } := by
  simp [setFormLoading, hb]

lemma finallyRelease_eq (f : Form) (b : SubmitBtn) (hb : f.button = some b) (evs : List Ev) :
    finallyRelease f evs
      = ({ f with button := some { disabled := false, btnLoading := false },
                  formLoading := false },
         evs ++ [Ev.setLoading false], false) := by
  unfold finallyRelease
  rw [setFormLoading_false_eq f b hb]

/-- When validation fails, the handler returns before touching the
loading state or the network. -/
lemma handleSubmit_invalid (form : Form) (fr : FetchResult)
    (hv : (validateForm form).2 = false) :
    handleSubmit form fr = ((validateForm form).1, [], false) := by
  unfold handleSubmit
  simp [hv]

/-- When validation succeeds on a form whose submit control is missing,
engaging the loading state throws before anything else happens. -/
lemma handleSubmit_nobutton (form : Form) (fr : FetchResult)
    (hv : (validateForm form).2 = true) (hb : (validateForm form).1.button = none) :
    handleSubmit form fr = ((validateForm form).1, [], true) := by
  unfold handleSubmit
  simp [hv, setFormLoading, hb]

/-- The form state after engaging the loading state. -/
def engaged (form : Form) : Form :=
  { (validateForm form).1 with button := some { disabled := true, btnLoading := true },
                               formLoading := true }

/-- The form state after the `finally` block releases the loading
state again. -/
def released (f : Form) : Form :=
  { f with button := some { disabled := false, btnLoading := false },
           formLoading := false }

lemma handleSubmit_valid_eq (form : Form) (fr : FetchResult) (b : SubmitBtn)
    (hb : form.button = some b) (hv : (validateForm form).2 = true) :
    handleSubmit form fr =
      match fr with
      | FetchResult.netThrow m =>
        finallyRelease (engaged form)
          ([Ev.setLoading true, Ev.request]
            ++ [Ev.notify "Error" (jsOr m "An error occurred. Please try again.") "error"])
      | FetchResult.resp ok body =>
        let result : RespBody := body.getD ⟨none, none⟩
        if ok then
          let evs0 := [Ev.setLoading true, Ev.request]
            ++ [Ev.notify "Success!" "Operation completed successfully." "success"]
          match result.redirect with
          | some r =>
            if r ≠ "" then finallyRelease (engaged form) (evs0 ++ [Ev.nav r])
            else if (engaged form).resetOnSuccess then
              finallyRelease (resetForm (engaged form)) (evs0 ++ [Ev.formReset])
            else finallyRelease (engaged form) evs0
          | none =>
            if (engaged form).resetOnSuccess then
              finallyRelease (resetForm (engaged form)) (evs0 ++ [Ev.formReset])
            else finallyRelease (engaged form) evs0
        else
          finallyRelease (engaged form)
            ([Ev.setLoading true, Ev.request]
              ++ [Ev.notify "Error"
                (jsOr (jsOr (result.message.getD "") "An error occurred")
                  "An error occurred. Please try again.") "error"]) := by
  have hb1 : (validateForm form).1.button = some b := (validateForm_button form) ▸ hb
  unfold handleSubmit
  simp only [hv, eq_self_iff_true, if_true]
  rw [setFormLoading_true_eq _ b hb1]
  rfl

/-! ### Claims -/

/-- **C8.** Initialization is idempotent: constructing the component
(notification-container creation plus style injection) any number of
times, starting from a document containing neither, leaves exactly one
notification container element and exactly one injected style block in
the document. -/
theorem C8_idempotent_init (n : Nat) (h : 1 ≤ n) :
    newFormHandler^[n] ⟨0, 0⟩ = ⟨1, 1⟩ := by
  induction n with
  | zero => exact absurd h (by decide)
  | succ m ih =>
    rcases Nat.eq_zero_or_pos m with hm | hm
    · subst hm
      rfl
    · rw [Function.iterate_succ_apply', ih hm]
      rfl

/-- Witness for C8 at `n = 2`: constructing the handler twice still
leaves one container and one style block. -/
theorem C8_witness : 1 ≤ 2 ∧ newFormHandler^[2] (⟨0, 0⟩ : Doc) = ⟨1, 1⟩ :=
  ⟨by decide, C8_idempotent_init 2 (by decide)⟩

/-- **C10.** `showNotification` appends exactly one toast to the shared
container; its markup is the template with the title and the message
substituted verbatim (no escaping), so HTML markup inside a
server-supplied message is parsed as markup: the markup built from a
message differs from the markup built from its HTML-escaped form. -/
theorem C10_toast_markup (container : List Toast) (title message ty : String) :
    showNotification container title message ty
        = container ++ [{ className := "toast " ++ ty, innerHTML := toastHTML title message }]
      ∧ (showNotification container title message ty).length = container.length + 1
      ∧ toastHTML title message = toastPre ++ title ++ toastMid ++ message ++ toastSuf
      ∧ toastHTML "Error" "<img src=x onerror=alert(1)>"
          ≠ toastHTML "Error" (htmlEscape "<img src=x onerror=alert(1)>") := by
  refine ⟨rfl, by simp [showNotification], rfl, by decide⟩

/-- **C9 (amended).** On a managed form with no submit control,
enhancement and a submission blocked by validation do not crash; but
when validation passes, `setFormLoading` dereferences the missing
submit control and a TypeError escapes the handler: the cycle aborts
before any request, notification, or loading-class change. -/
theorem C9_no_submit_control (form : Form) (fr : FetchResult) (hb : form.button = none) :
    ((validateForm form).2 = false → handleSubmit form fr = ((validateForm form).1, [], false))
  ∧ ((validateForm form).2 = true → handleSubmit form fr = ((validateForm form).1, [], true)) := by
  refine ⟨fun hv => handleSubmit_invalid form fr hv, fun hv => ?_⟩
  exact handleSubmit_nobutton form fr hv ((validateForm_button form) ▸ hb)

/-- Counterexample to C9 as stated: on a buttonless form whose
validation passes, the submission cycle does crash (the escaped-throw
flag is set), rather than degrading without a crash. -/
theorem C9_counterexample :
    (handleSubmit { fields := [], button := none, formLoading := false, resetOnSuccess := false }
        (FetchResult.resp true (some { redirect := none, message := none }))).2.2 = true := by
  decide

/-- Witness for C9: both branches of the amended statement at concrete
forms (one failing validation, one passing it). -/
theorem C9_witness :
    handleSubmit
        { fields := [{ ftype := FieldType.plain, required := true, value := "",
                       defaultValue := "", minLength := none, confirm := false,
                       invalid := false, message := none }],
          button := none, formLoading := false, resetOnSuccess := false }
        (FetchResult.resp true none)
      = ((validateForm
          { fields := [{ ftype := FieldType.plain, required := true, value := "",
                         defaultValue := "", minLength := none, confirm := false,
                         invalid := false, message := none }],
            button := none, formLoading := false, resetOnSuccess := false }).1, [], false)
  ∧ handleSubmit
        { fields := [], button := none, formLoading := true, resetOnSuccess := false }
        (FetchResult.resp true none)
      = ((validateForm
          { fields := [], button := none, formLoading := true, resetOnSuccess := false }).1,
         [], true) :=
  ⟨(C9_no_submit_control _ _ rfl).1 (by decide), (C9_no_submit_control _ _ rfl).2 (by decide)⟩

/-- **C1.** For every managed form (with its submit control present, as
the claim's loading state presupposes) and every submit event: if
`validateForm` returns false, no request is issued and the loading
state is never engaged (the handler returns with the form's loading
flags untouched); if it returns true, the loading state is engaged
before the request is issued, released exactly once after the outcome
resolves — on the success, failure and thrown-exception paths — and the
form never ends stuck in the loading state. -/
theorem C1_loading_lifecycle (form : Form) (fr : FetchResult) (b : SubmitBtn)
    (hb : form.button = some b) :
    ((validateForm form).2 = false →
        handleSubmit form fr = ((validateForm form).1, [], false)
          ∧ (validateForm form).1.formLoading = form.formLoading
          ∧ (validateForm form).1.button = form.button)
  ∧ ((validateForm form).2 = true →
        (handleSubmit form fr).2.2 = false
          ∧ (∃ mid, (handleSubmit form fr).2.1
                = Ev.setLoading true :: Ev.request :: mid ++ [Ev.setLoading false]
              ∧ Ev.setLoading true ∉ mid ∧ Ev.setLoading false ∉ mid ∧ Ev.request ∉ mid)
          ∧ (handleSubmit form fr).1.formLoading = false
          ∧ (handleSubmit form fr).1.button
              = some { disabled := false, btnLoading := false }) := by
  constructor
  · intro hv
    exact ⟨handleSubmit_invalid form fr hv, validateForm_formLoading form,
      validateForm_button form⟩
  · intro hv
    rw [handleSubmit_valid_eq form fr b hb hv]
    rcases fr with m | ⟨ok, body⟩
    · exact ⟨rfl,
        ⟨[Ev.notify "Error" (jsOr m "An error occurred. Please try again.") "error"],
          rfl, by simp, by simp, by simp⟩, rfl, rfl⟩
    · cases ok with
      | false =>
        exact ⟨rfl,
          ⟨[Ev.notify "Error"
              (jsOr (jsOr (((body.getD ⟨none, none⟩)).message.getD "") "An error occurred")
                "An error occurred. Please try again.") "error"],
            rfl, by simp, by simp, by simp⟩, rfl, rfl⟩
      | true =>
        rcases body with _ | ⟨rd, msg⟩
        · dsimp only
          cases hrs : (engaged form).resetOnSuccess with
          | true =>
            exact ⟨rfl,
              ⟨[Ev.notify "Success!" "Operation completed successfully." "success",
                Ev.formReset], rfl, by simp, by simp, by simp⟩, rfl, rfl⟩
          | false =>
            exact ⟨rfl,
              ⟨[Ev.notify "Success!" "Operation completed successfully." "success"],
                rfl, by simp, by simp, by simp⟩, rfl, rfl⟩
        · dsimp only
          rcases rd with _ | r
          · cases hrs : (engaged form).resetOnSuccess with
            | true =>
              exact ⟨rfl,
                ⟨[Ev.notify "Success!" "Operation completed successfully." "success",
                  Ev.formReset], rfl, by simp, by simp, by simp⟩, rfl, rfl⟩
            | false =>
              exact ⟨rfl,
                ⟨[Ev.notify "Success!" "Operation completed successfully." "success"],
                  rfl, by simp, by simp, by simp⟩, rfl, rfl⟩
          · dsimp only [Option.getD]
            by_cases hr : r = ""
            · subst hr
              cases hrs : (engaged form).resetOnSuccess with
              | true =>
                exact ⟨rfl,
                  ⟨[Ev.notify "Success!" "Operation completed successfully." "success",
                    Ev.formReset], rfl, by simp, by simp, by simp⟩, rfl, rfl⟩
              | false =>
                exact ⟨rfl,
                  ⟨[Ev.notify "Success!" "Operation completed successfully." "success"],
                    rfl, by simp, by simp, by simp⟩, rfl, rfl⟩
            · simp only [ne_eq]
              rw [if_pos hr]
              exact ⟨rfl,
                ⟨[Ev.notify "Success!" "Operation completed successfully." "success",
                  Ev.nav r], rfl, by simp, by simp, by simp⟩, rfl, rfl⟩

/-- Witness for C1 at a concrete form and a throwing fetch: validation
passes and no exception escapes the handler. -/
theorem C1_witness :
    (validateForm { fields := [], button := some ⟨false, false⟩, formLoading := false,
                    resetOnSuccess := false }).2 = true
  ∧ (handleSubmit { fields := [], button := some ⟨false, false⟩, formLoading := false,
                    resetOnSuccess := false } (FetchResult.netThrow "boom")).2.2 = false :=
  ⟨by decide,
    ((C1_loading_lifecycle _ (FetchResult.netThrow "boom") ⟨false, false⟩ rfl).2 (by decide)).1⟩

lemma submitFieldMark_eq_none (f : Field) :
    submitFieldMark f = none ↔ (f.required && (fieldError f).isSome) = false := by
  unfold submitFieldMark
  cases hr : f.required
  · simp
  · cases he : fieldError f <;> simp [he]

lemma checkStep_eq_self (f : Field) (h : submitFieldMark f = none) : checkStep f = f := by
  unfold checkStep
  unfold submitFieldMark at h
  cases hr : f.required
  · simp
  · rw [hr] at h
    simp only [if_true] at h
    unfold checkField
    rw [h]
    rfl

lemma checkStep_of_fieldError (f : Field) (m : String)
    (hreq : f.required = true) (hm : fieldError f = some m) :
    checkStep f = applyMark f m := by
  unfold checkStep checkField
  rw [hreq, hm]
  rfl

lemma validateForm_fields (form : Form) :
    (validateForm form).1.fields
      = if confirmMismatch (phase1 form.fields) then markConfirmField (phase1 form.fields)
        else phase1 form.fields := by
  unfold validateForm
  dsimp only
  split <;> rfl

lemma validateForm_snd (form : Form) :
    (validateForm form).2
      = ((!confirmMismatch (phase1 form.fields)) && phase1Ok form.fields) := by
  unfold validateForm
  dsimp only
  split
  · rename_i h
    rw [h]
    rfl
  · rename_i h
    rw [Bool.eq_false_iff.mpr h]
    rfl

/-- The per-index effect of `validateForm` on a required field that
fails its checks and is not subsequently hit by the confirm mark. -/
lemma validateForm_getElem?_of_mark (form : Form) (i : Nat) (f : Field) (m : String)
    (hf : form.fields[i]? = some f) (hreq : f.required = true)
    (hm : fieldError f = some m) (hnc : confirmPred (applyMark f m) = false) :
    (validateForm form).1.fields[i]? = some (applyMark f m) := by
  have h1 : (phase1 form.fields)[i]? = some (applyMark f m) := by
    rw [phase1_getElem?, hf, Option.map_some', checkStep_of_fieldError f m hreq hm]
  rw [validateForm_fields]
  by_cases hcm : confirmMismatch (phase1 form.fields) = true
  · rw [if_pos hcm]
    exact markConfirmField_getElem?_of_neg _ i _ h1 hnc
  · rw [if_neg hcm]
    exact h1

/-- **C2 (amended).** `validateForm(form)` returns true iff no field is
marked invalid during that call; every field failing its checks carries
a visible message after the call; but fields that pass their checks are
left entirely untouched — in particular a previously-invalid field that
no longer fails KEEPS its stale annotation (clearing happens only in
the input-event listener, not in `validateForm`). -/
theorem C2_validateForm_contract (form : Form) :
    ((validateForm form).2 = true ↔
        (∀ f ∈ form.fields, submitFieldMark f = none)
          ∧ confirmMismatch (phase1 form.fields) = false)
  ∧ (∀ i : Nat, ∀ f : Field, form.fields[i]? = some f →
        ∀ m, f.required = true → fieldError f = some m →
          ∃ g, (validateForm form).1.fields[i]? = some g
            ∧ g.invalid = true ∧ g.message.isSome = true)
  ∧ (confirmMismatch (phase1 form.fields) = false →
        ∀ i : Nat, ∀ f : Field, form.fields[i]? = some f → submitFieldMark f = none →
          (validateForm form).1.fields[i]? = some f) := by
  refine ⟨?_, ?_, ?_⟩
  · rw [validateForm_snd, Bool.and_eq_true, Bool.not_eq_true']
    unfold phase1Ok
    rw [List.all_eq_true]
    constructor
    · rintro ⟨hcm, hall⟩
      refine ⟨fun f hf => (submitFieldMark_eq_none f).mpr ?_, hcm⟩
      have h2 : (!(f.required && (fieldError f).isSome)) = true := hall f hf
      rw [← Bool.not_eq_true']
      exact h2
    · rintro ⟨hall, hcm⟩
      refine ⟨hcm, fun f hf => ?_⟩
      have hx : (f.required && (fieldError f).isSome) = false :=
        (submitFieldMark_eq_none f).mp (hall f hf)
      show (!(f.required && (fieldError f).isSome)) = true
      rw [hx]
      rfl
  · intro i f hf m hreq hm
    have h1 : (phase1 form.fields)[i]? = some (applyMark f m) := by
      rw [phase1_getElem?, hf, Option.map_some', checkStep_of_fieldError f m hreq hm]
    rw [validateForm_fields]
    by_cases hcm : confirmMismatch (phase1 form.fields) = true
    · rw [if_pos hcm]
      rcases markConfirmField_getElem? _ i _ h1 with h2 | h2
      · exact ⟨applyMark f m, h2, rfl, rfl⟩
      · exact ⟨applyMark (applyMark f m) confirmMsg, h2, rfl, rfl⟩
    · rw [if_neg hcm]
      exact ⟨applyMark f m, h1, rfl, rfl⟩
  · intro hcm i f hf hnone
    rw [validateForm_fields, if_neg (by rw [hcm]; exact Bool.false_ne_true)]
    rw [phase1_getElem?, hf, Option.map_some', checkStep_eq_self f hnone]

/-- Counterexample to C2 as stated: a field annotated invalid from an
earlier pass, whose value now passes every check, is NOT cleared by
`validateForm` — the call returns true yet the stale `is-invalid`
annotation and message remain. -/
theorem C2_counterexample :
    validateForm
        { fields := [{ ftype := FieldType.plain, required := true, value := "x",
                       defaultValue := "", minLength := none, confirm := false,
                       invalid := true, message := some "This field is required" }],
          button := some ⟨false, false⟩, formLoading := false, resetOnSuccess := false }
      = ({ fields := [{ ftype := FieldType.plain, required := true, value := "x",
                        defaultValue := "", minLength := none, confirm := false,
                        invalid := true, message := some "This field is required" }],
           button := some ⟨false, false⟩, formLoading := false, resetOnSuccess := false },
         true) := by
  decide

/-- Witness for C2: on a concrete form with one failing required field,
the marked field is invalid and carries a message after the call. -/
theorem C2_witness :
    ∃ g, (validateForm
        { fields := [{ ftype := FieldType.plain, required := true, value := "",
                       defaultValue := "", minLength := none, confirm := false,
                       invalid := false, message := none }],
          button := some ⟨false, false⟩, formLoading := false,
          resetOnSuccess := false }).1.fields[0]? = some g
      ∧ g.invalid = true ∧ g.message.isSome = true :=
  (C2_validateForm_contract _).2.1 0
    { ftype := FieldType.plain, required := true, value := "", defaultValue := "",
      minLength := none, confirm := false, invalid := false, message := none }
    rfl requiredMsg rfl (by decide)

/-- **C3 (amended).** For every *required* email-type field, a value
whose trimmed form is nonempty but which lacks `@` or `.` is marked
invalid with the format message; a required email field whose trimmed
value is empty gets the required message instead (required-empty takes
precedence over the type-specific check).  Email fields without the
`required` attribute are not examined by `validateForm` at all. -/
theorem C3_required_email (form : Form) (i : Nat) (f : Field)
    (hf : form.fields[i]? = some f) (hreq : f.required = true)
    (hty : f.ftype = FieldType.email) :
    (jsTrim f.value ≠ "" → ('@' ∉ f.value.data ∨ '.' ∉ f.value.data) →
        (validateForm form).1.fields[i]? = some (applyMark f emailMsg))
  ∧ (jsTrim f.value = "" →
        (validateForm form).1.fields[i]? = some (applyMark f requiredMsg)) := by
  constructor
  · intro htrim hchar
    have hinv : isValidEmail f.value = false := by
      rcases hchar with h | h
      · exact isValidEmail_false_of_no_at _ h
      · exact isValidEmail_false_of_no_dot _ h
    have hm : fieldError f = some emailMsg := by
      unfold fieldError
      rw [if_neg htrim, if_pos ⟨hty, by rw [hinv]; exact Bool.false_ne_true⟩]
    exact validateForm_getElem?_of_mark form i f emailMsg hf hreq hm
      (by simp [confirmPred, hty])
  · intro htrim
    have hm : fieldError f = some requiredMsg := by
      unfold fieldError
      rw [if_pos htrim]
    exact validateForm_getElem?_of_mark form i f requiredMsg hf hreq hm
      (by simp [confirmPred, hty])

/-- Counterexample to C3 as stated: an email field *without* the
`required` attribute holding the non-empty value abc (no `@`, no `.`)
is not touched by `validateForm`, which returns true — the claim's
quantification over every email-type field fails. -/
theorem C3_counterexample :
    validateForm
        { fields := [{ ftype := FieldType.email, required := false, value := "abc",
                       defaultValue := "", minLength := none, confirm := false,
                       invalid := false, message := none }],
          button := some ⟨false, false⟩, formLoading := false, resetOnSuccess := false }
      = ({ fields := [{ ftype := FieldType.email, required := false, value := "abc",
                        defaultValue := "", minLength := none, confirm := false,
                        invalid := false, message := none }],
           button := some ⟨false, false⟩, formLoading := false, resetOnSuccess := false },
         true) := by
  decide

/-- Witness for C3: a required email field with value abc is marked
with the format message, and one with a blank value gets the required
message. -/
theorem C3_witness :
    (validateForm
        { fields := [{ ftype := FieldType.email, required := true, value := "abc",
                       defaultValue := "", minLength := none, confirm := false,
                       invalid := false, message := none }],
          button := some ⟨false, false⟩, formLoading := false,
          resetOnSuccess := false }).1.fields[0]?
      = some (applyMark
          { ftype := FieldType.email, required := true, value := "abc",
            defaultValue := "", minLength := none, confirm := false,
            invalid := false, message := none } emailMsg)
  ∧ (validateForm
        { fields := [{ ftype := FieldType.email, required := true, value := " ",
                       defaultValue := "", minLength := none, confirm := false,
                       invalid := false, message := none }],
          button := some ⟨false, false⟩, formLoading := false,
          resetOnSuccess := false }).1.fields[0]?
      = some (applyMark
          { ftype := FieldType.email, required := true, value := " ",
            defaultValue := "", minLength := none, confirm := false,
            invalid := false, message := none } requiredMsg) :=
  ⟨(C3_required_email
      { fields := [{ ftype := FieldType.email, required := true, value := "abc",
                     defaultValue := "", minLength := none, confirm := false,
                     invalid := false, message := none }],
        button := some ⟨false, false⟩, formLoading := false, resetOnSuccess := false }
      0
      { ftype := FieldType.email, required := true, value := "abc", defaultValue := "",
        minLength := none, confirm := false, invalid := false, message := none }
      rfl rfl rfl).1 (by decide) (Or.inl (by decide)),
   (C3_required_email
      { fields := [{ ftype := FieldType.email, required := true, value := " ",
                     defaultValue := "", minLength := none, confirm := false,
                     invalid := false, message := none }],
        button := some ⟨false, false⟩, formLoading := false, resetOnSuccess := false }
      0
      { ftype := FieldType.email, required := true, value := " ", defaultValue := "",
        minLength := none, confirm := false, invalid := false, message := none }
      rfl rfl rfl).2 (by decide)⟩

/-- **C4 (amended).** The blur listener applies the same required-empty
and email-format rules (with the same messages) as `validateForm`'s
per-field checks on required non-password fields; but it does not
apply the password minimum-length check (a password field with a
nonempty trimmed value is never marked on blur), and `validateForm`
never examines fields lacking the `required` attribute (while blur
still applies its email check to them). -/
theorem C4_blur_vs_submit (f : Field) :
    (f.required = true → f.ftype ≠ FieldType.password → blurMark f = submitFieldMark f)
  ∧ (f.ftype = FieldType.password → jsTrim f.value ≠ "" →
      blurValidate f = f ∧ blurMark f = none)
  ∧ (f.required = false → submitFieldMark f = none) := by
  refine ⟨?_, ?_, ?_⟩
  · intro hreq hp
    unfold blurMark submitFieldMark fieldError
    by_cases ht : jsTrim f.value = ""
    · simp [hreq, ht]
    · have hv : f.value ≠ "" := fun h0 => ht (by rw [h0]; rfl)
      cases hml : f.minLength <;>
        by_cases he : f.ftype = FieldType.email <;>
          by_cases hie : isValidEmail f.value <;>
            simp [hreq, ht, hv, he, hie, hp]
  · intro hpw htrim
    unfold blurValidate blurMark
    have h1 : ¬(f.required = true ∧ jsTrim f.value = "") := fun h => htrim h.2
    have h2 : ¬(f.ftype = FieldType.email ∧ f.value ≠ "" ∧ ¬ isValidEmail f.value = true) := by
      rintro ⟨he, _⟩
      rw [hpw] at he
      exact absurd he (by decide)
    rw [if_neg h1, if_neg h2]
    exact ⟨rfl, rfl⟩
  · intro h
    unfold submitFieldMark
    rw [h]
    rfl

/-- Counterexample to C4 as stated: a required password field with a
`data-min-length` of 8 and the value abc is marked invalid by
`validateForm`'s per-field checks, but the blur listener leaves it
untouched — the per-field rules are not the same. -/
theorem C4_counterexample :
    blurValidate
        { ftype := FieldType.password, required := true, value := "abc", defaultValue := "",
          minLength := some 8, confirm := false, invalid := false, message := none }
      = { ftype := FieldType.password, required := true, value := "abc", defaultValue := "",
          minLength := some 8, confirm := false, invalid := false, message := none }
  ∧ submitFieldMark
        { ftype := FieldType.password, required := true, value := "abc", defaultValue := "",
          minLength := some 8, confirm := false, invalid := false, message := none }
      = some "Password must be at least 8 characters" := by
  decide

/-- Witness for C4: all three parts of the amended statement at
concrete fields. -/
theorem C4_witness :
    blurMark { ftype := FieldType.email, required := true, value := "abc",
               defaultValue := "", minLength := none, confirm := false,
               invalid := false, message := none }
      = submitFieldMark { ftype := FieldType.email, required := true, value := "abc",
                          defaultValue := "", minLength := none, confirm := false,
                          invalid := false, message := none }
  ∧ (blurValidate { ftype := FieldType.password, required := true, value := "abcd",
                    defaultValue := "", minLength := some 8, confirm := false,
                    invalid := false, message := none }
        = { ftype := FieldType.password, required := true, value := "abcd",
            defaultValue := "", minLength := some 8, confirm := false,
            invalid := false, message := none }
      ∧ blurMark { ftype := FieldType.password, required := true, value := "abcd",
                   defaultValue := "", minLength := some 8, confirm := false,
                   invalid := false, message := none } = none)
  ∧ submitFieldMark { ftype := FieldType.email, required := false, value := "abc",
                      defaultValue := "", minLength := none, confirm := false,
                      invalid := false, message := none } = none :=
  ⟨(C4_blur_vs_submit _).1 rfl (by decide),
   (C4_blur_vs_submit _).2.1 rfl (by decide),
   (C4_blur_vs_submit _).2.2 rfl⟩

/-- **C5 (amended).** Whenever the *first* password field of the form
(the node `querySelector('input[type=password]')` returns) and the
first confirmation-marked password field hold different values,
`validateForm` marks the confirmation field invalid with the mismatch
message and returns false — even when each field individually passes
its own checks.  (When the confirmation field is itself the first
password field in document order, both selectors return the same node
and the check is vacuous.) -/
theorem C5_confirm_mismatch (form : Form) (p c : Field)
    (hp : form.fields.find? pwPred = some p)
    (hc : form.fields.find? confirmPred = some c)
    (hne : p.value ≠ c.value) :
    (validateForm form).2 = false
  ∧ ∃ g, (validateForm form).1.fields.find? confirmPred = some g
      ∧ g.invalid = true ∧ g.message = some confirmMsg ∧ g.value = c.value := by
  have hp1 : (phase1 form.fields).find? pwPred = some (checkStep p) := by
    rw [phase1_find?_pw, hp, Option.map_some']
  have hc1 : (phase1 form.fields).find? confirmPred = some (checkStep c) := by
    rw [phase1_find?_confirm, hc, Option.map_some']
  have hcm : confirmMismatch (phase1 form.fields) = true := by
    unfold confirmMismatch
    rw [hp1, hc1]
    dsimp only
    rw [checkStep_value, checkStep_value]
    exact bne_iff_ne.mpr hne
  constructor
  · rw [validateForm_snd, hcm]
    rfl
  · rw [validateForm_fields, if_pos hcm]
    refine ⟨applyMark (checkStep c) confirmMsg, markConfirmField_find? _ _ hc1, rfl, rfl, ?_⟩
    show (applyMark (checkStep c) confirmMsg).value = c.value
    rw [applyMark_value, checkStep_value]

/-- Counterexample to C5 as stated: when the confirmation-marked field
is the *first* password field in document order, both selectors return
it, the mismatch check compares it with itself, and `validateForm`
returns true with nothing marked — although the two password values
differ. -/
theorem C5_counterexample :
    validateForm
        { fields := [{ ftype := FieldType.password, required := false, value := "a",
                       defaultValue := "", minLength := none, confirm := true,
                       invalid := false, message := none },
                     { ftype := FieldType.password, required := false, value := "b",
                       defaultValue := "", minLength := none, confirm := false,
                       invalid := false, message := none }],
          button := some ⟨false, false⟩, formLoading := false, resetOnSuccess := false }
      = ({ fields := [{ ftype := FieldType.password, required := false, value := "a",
                        defaultValue := "", minLength := none, confirm := true,
                        invalid := false, message := none },
                      { ftype := FieldType.password, required := false, value := "b",
                        defaultValue := "", minLength := none, confirm := false,
                        invalid := false, message := none }],
           button := some ⟨false, false⟩, formLoading := false, resetOnSuccess := false },
         true) := by
  decide

/-- Witness for C5: on a concrete form with the password field first
and a differing confirmation field second, validation fails. -/
theorem C5_witness :
    (validateForm
        { fields := [{ ftype := FieldType.password, required := false, value := "aaaa",
                       defaultValue := "", minLength := none, confirm := false,
                       invalid := false, message := none },
                     { ftype := FieldType.password, required := false, value := "bbbb",
                       defaultValue := "", minLength := none, confirm := true,
                       invalid := false, message := none }],
          button := some ⟨false, false⟩, formLoading := false,
          resetOnSuccess := false }).2 = false :=
  (C5_confirm_mismatch
    { fields := [{ ftype := FieldType.password, required := false, value := "aaaa",
                   defaultValue := "", minLength := none, confirm := false,
                   invalid := false, message := none },
                 { ftype := FieldType.password, required := false, value := "bbbb",
                   defaultValue := "", minLength := none, confirm := true,
                   invalid := false, message := none }],
      button := some ⟨false, false⟩, formLoading := false, resetOnSuccess := false }
    { ftype := FieldType.password, required := false, value := "aaaa", defaultValue := "",
      minLength := none, confirm := false, invalid := false, message := none }
    { ftype := FieldType.password, required := false, value := "bbbb", defaultValue := "",
      minLength := none, confirm := true, invalid := false, message := none }
    (by decide) (by decide) (by decide)).1

/-- **C6 (amended).** On a successful response whose body carries a
nonempty redirect target, the navigation event fires with that target,
no reset happens (even when reset-on-success is configured), and every
field value is left unchanged.  On a successful response with no
redirect target and reset-on-success configured, the reset fires and
every field value returns to its DEFAULT value (`form.reset()`
restores defaults); the values are all empty exactly in the common
case that the fields' defaults are empty. -/
theorem C6_redirect_and_reset (form : Form) (b : SubmitBtn)
    (hb : form.button = some b) (hv : (validateForm form).2 = true) :
    (∀ r msg, r ≠ "" →
        Ev.nav r ∈ (handleSubmit form (FetchResult.resp true (some ⟨some r, msg⟩))).2.1
      ∧ Ev.formReset ∉ (handleSubmit form (FetchResult.resp true (some ⟨some r, msg⟩))).2.1
      ∧ (handleSubmit form (FetchResult.resp true (some ⟨some r, msg⟩))).1.fields.map Field.value
          = form.fields.map Field.value)
  ∧ (∀ msg, form.resetOnSuccess = true →
        Ev.formReset ∈ (handleSubmit form (FetchResult.resp true (some ⟨none, msg⟩))).2.1
      ∧ (handleSubmit form (FetchResult.resp true (some ⟨none, msg⟩))).1.fields.map Field.value
          = form.fields.map Field.defaultValue
      ∧ ((∀ f ∈ form.fields, f.defaultValue = "") →
          ∀ g ∈ (handleSubmit form (FetchResult.resp true (some ⟨none, msg⟩))).1.fields,
            g.value = "")) := by
  constructor
  · intro r msg hr
    rw [handleSubmit_valid_eq form _ b hb hv]
    dsimp only [Option.getD]
    rw [if_pos hr]
    refine ⟨by simp [finallyRelease, setFormLoading, engaged, resetForm],
      by simp [finallyRelease, setFormLoading, engaged, resetForm], ?_⟩
    show ((validateForm form).1.fields).map Field.value = form.fields.map Field.value
    exact validateForm_map_value form
  · intro msg hrs
    rw [handleSubmit_valid_eq form _ b hb hv]
    dsimp only [Option.getD]
    have hrs' : (engaged form).resetOnSuccess = true := by
      show (validateForm form).1.resetOnSuccess = true
      rw [validateForm_resetOnSuccess]
      exact hrs
    rw [if_pos hrs']
    refine ⟨by simp [finallyRelease, setFormLoading, engaged, resetForm], ?_, ?_⟩
    · show ((validateForm form).1.fields.map fun fd => { fd with value := fd.defaultValue }).map
          Field.value
        = form.fields.map Field.defaultValue
      rw [List.map_map]
      have hcomp : (Field.value ∘ fun fd => { fd with value := fd.defaultValue })
          = Field.defaultValue := funext fun fd => rfl
      rw [hcomp, validateForm_map_defaultValue]
    · intro hdef
      show ∀ g ∈ ((validateForm form).1.fields.map fun fd => { fd with value := fd.defaultValue }),
        g.value = ""
      intro g hg
      rcases List.mem_map.mp hg with ⟨f0, hf0, rfl⟩
      show f0.defaultValue = ""
      have hmem : f0.defaultValue ∈ (validateForm form).1.fields.map Field.defaultValue :=
        List.mem_map_of_mem _ hf0
      rw [validateForm_map_defaultValue] at hmem
      rcases List.mem_map.mp hmem with ⟨f1, hf1, he⟩
      rw [← he]
      exact hdef f1 hf1

/-- Counterexample to C6 as stated: with reset-on-success configured,
no redirect, and a field whose default value is preset, `form.reset()`
restores that default, so the field value after resolution is preset —
NOT empty as the claim requires. -/
theorem C6_counterexample :
    (handleSubmit
        { fields := [{ ftype := FieldType.plain, required := false, value := "hello",
                       defaultValue := "preset", minLength := none, confirm := false,
                       invalid := false, message := none }],
          button := some ⟨false, false⟩, formLoading := false, resetOnSuccess := true }
        (FetchResult.resp true (some ⟨none, none⟩))).1.fields.map Field.value
      = ["preset"]
  ∧ ¬ (∀ g ∈ (handleSubmit
        { fields := [{ ftype := FieldType.plain, required := false, value := "hello",
                       defaultValue := "preset", minLength := none, confirm := false,
                       invalid := false, message := none }],
          button := some ⟨false, false⟩, formLoading := false, resetOnSuccess := true }
        (FetchResult.resp true (some ⟨none, none⟩))).1.fields, g.value = "") := by
  constructor
  · decide
  · decide

/-- Witness for C6: both branches at a concrete form (one field, value
hello, empty default, reset-on-success configured): navigation fires
and values stay put under a redirect; the reset restores the (empty)
defaults otherwise. -/
theorem C6_witness :
    Ev.nav "/done" ∈ (handleSubmit
        { fields := [{ ftype := FieldType.plain, required := false, value := "hello",
                       defaultValue := "", minLength := none, confirm := false,
                       invalid := false, message := none }],
          button := some ⟨false, false⟩, formLoading := false, resetOnSuccess := true }
        (FetchResult.resp true (some ⟨some "/done", none⟩))).2.1
  ∧ (handleSubmit
        { fields := [{ ftype := FieldType.plain, required := false, value := "hello",
                       defaultValue := "", minLength := none, confirm := false,
                       invalid := false, message := none }],
          button := some ⟨false, false⟩, formLoading := false, resetOnSuccess := true }
        (FetchResult.resp true (some ⟨some "/done", none⟩))).1.fields.map Field.value
      = ["hello"]
  ∧ Ev.formReset ∈ (handleSubmit
        { fields := [{ ftype := FieldType.plain, required := false, value := "hello",
                       defaultValue := "", minLength := none, confirm := false,
                       invalid := false, message := none }],
          button := some ⟨false, false⟩, formLoading := false, resetOnSuccess := true }
        (FetchResult.resp true (some ⟨none, none⟩))).2.1
  ∧ ∀ g ∈ (handleSubmit
        { fields := [{ ftype := FieldType.plain, required := false, value := "hello",
                       defaultValue := "", minLength := none, confirm := false,
                       invalid := false, message := none }],
          button := some ⟨false, false⟩, formLoading := false, resetOnSuccess := true }
        (FetchResult.resp true (some ⟨none, none⟩))).1.fields, g.value = "" :=
  ⟨((C6_redirect_and_reset
      { fields := [{ ftype := FieldType.plain, required := false, value := "hello",
                     defaultValue := "", minLength := none, confirm := false,
                     invalid := false, message := none }],
        button := some ⟨false, false⟩, formLoading := false, resetOnSuccess := true }
      ⟨false, false⟩ rfl (by decide)).1 "/done" none (by decide)).1,
   ((C6_redirect_and_reset
      { fields := [{ ftype := FieldType.plain, required := false, value := "hello",
                     defaultValue := "", minLength := none, confirm := false,
                     invalid := false, message := none }],
        button := some ⟨false, false⟩, formLoading := false, resetOnSuccess := true }
      ⟨false, false⟩ rfl (by decide)).1 "/done" none (by decide)).2.2,
   ((C6_redirect_and_reset
      { fields := [{ ftype := FieldType.plain, required := false, value := "hello",
                     defaultValue := "", minLength := none, confirm := false,
                     invalid := false, message := none }],
        button := some ⟨false, false⟩, formLoading := false, resetOnSuccess := true }
      ⟨false, false⟩ rfl (by decide)).2 none rfl).1,
   ((C6_redirect_and_reset
      { fields := [{ ftype := FieldType.plain, required := false, value := "hello",
                     defaultValue := "", minLength := none, confirm := false,
                     invalid := false, message := none }],
        button := some ⟨false, false⟩, formLoading := false, resetOnSuccess := true }
      ⟨false, false⟩ rfl (by decide)).2 none rfl).2.2 (by decide)⟩

/-- **C7.** On a response with non-success status, the error
notification's text is the body's `message` string when the body
parses and carries a nonempty one, and the generic fallback text
otherwise (message absent, empty, or body unparsable — the unparsable
body is replaced by an empty object and no exception escapes the
handler). -/
theorem C7_error_message (form : Form) (b : SubmitBtn)
    (hb : form.button = some b) (hv : (validateForm form).2 = true) :
    (∀ rd m, m ≠ "" →
        (handleSubmit form (FetchResult.resp false (some ⟨rd, some m⟩))).2.1
          = [Ev.setLoading true, Ev.request, Ev.notify "Error" m "error",
             Ev.setLoading false]
      ∧ (handleSubmit form (FetchResult.resp false (some ⟨rd, some m⟩))).2.2 = false)
  ∧ (∀ rd, (handleSubmit form (FetchResult.resp false (some ⟨rd, none⟩))).2.1
        = [Ev.setLoading true, Ev.request,
           Ev.notify "Error" "An error occurred" "error", Ev.setLoading false]
      ∧ (handleSubmit form (FetchResult.resp false (some ⟨rd, none⟩))).2.2 = false)
  ∧ ((handleSubmit form (FetchResult.resp false none)).2.1
        = [Ev.setLoading true, Ev.request,
           Ev.notify "Error" "An error occurred" "error", Ev.setLoading false]
      ∧ (handleSubmit form (FetchResult.resp false none)).2.2 = false) := by
  refine ⟨?_, ?_, ?_⟩
  · intro rd m hm
    rw [handleSubmit_valid_eq form _ b hb hv]
    have h1 : jsOr (jsOr m "An error occurred") "An error occurred. Please try again." = m := by
      unfold jsOr
      rw [if_neg hm, if_neg hm]
    dsimp only [Option.getD]
    rw [h1]
    exact ⟨rfl, rfl⟩
  · intro rd
    rw [handleSubmit_valid_eq form _ b hb hv]
    exact ⟨rfl, rfl⟩
  · rw [handleSubmit_valid_eq form _ b hb hv]
    exact ⟨rfl, rfl⟩

/-- Witness for C7: at a concrete form, the bad-input message is shown
verbatim and the unparsable body falls back to the generic message. -/
theorem C7_witness :
    (handleSubmit { fields := [], button := some ⟨false, false⟩, formLoading := false,
                    resetOnSuccess := false }
        (FetchResult.resp false (some ⟨none, some "bad input"⟩))).2.1
      = [Ev.setLoading true, Ev.request, Ev.notify "Error" "bad input" "error",
         Ev.setLoading false]
  ∧ (handleSubmit { fields := [], button := some ⟨false, false⟩, formLoading := false,
                    resetOnSuccess := false }
        (FetchResult.resp false none)).2.1
      = [Ev.setLoading true, Ev.request,
         Ev.notify "Error" "An error occurred" "error", Ev.setLoading false] :=
  ⟨((C7_error_message
      { fields := [], button := some ⟨false, false⟩, formLoading := false,
        resetOnSuccess := false } ⟨false, false⟩ rfl (by decide)).1
      none "bad input" (by decide)).1,
   ((C7_error_message
      { fields := [], button := some ⟨false, false⟩, formLoading := false,
        resetOnSuccess := false } ⟨false, false⟩ rfl (by decide)).2.2).1⟩

end FormHandler
